import Mathlib

/-!
Shallow embedding of the ligerbots-website-frontend backend-access layer:
the Directus client provider (getBackendClient, isDirectusClient), the site
configuration fetcher (getSiteConfig) and the page fetcher (getPage).

JavaScript runtime values are modelled by the inductive JsValue; network
interactions (client.login, client.query) are modelled by oracle functions
passed explicitly; the module-level mutable singleton of the client provider
is passed around as an explicit BackendState.
-/

namespace LigerBots

/-- Model of a JavaScript runtime value, to the extent that the code under
study inspects values: undefined, null, booleans, numbers, strings, functions
(kept opaque), plain objects as ordered lists of own key-value properties,
and arrays. Prototype-inherited members are not modelled; the code only
duck-types SDK objects by their own properties (see jsIn for the one
irrelevant corner). -/
inductive JsValue where
  | undefined
  | null
  | bool (b : Bool)
  | num (n : Int)
  | str (s : String)
  | func
  | obj (props : List (String × JsValue))
  | arr (elems : List JsValue)

/-- Result of the JavaScript typeof operator on a modelled value.
Note typeof null is the string "object" in JavaScript. -/
def jsTypeof : JsValue → String
  | .undefined => "undefined"
  | .null => "object"
  | .bool _ => "boolean"
  | .num _ => "number"
  | .str _ => "string"
  | .func => "function"
  | .obj _ => "object"
  | .arr _ => "object"

/-- Look up a key in an object property list (first match). -/
def getKey : List (String × JsValue) → String → Option JsValue
  | [], _ => none
  | p :: ps, k => if p.1 = k then some p.2 else getKey ps k

/-- JavaScript property assignment on a property list: replace the existing
entry in place if the key is present, otherwise append the new entry at the
end (JavaScript preserves insertion order of object keys). -/
def setKey : List (String × JsValue) → String → JsValue → List (String × JsValue)
  | [], k, v => [(k, v)]
  | p :: ps, k, v => if p.1 = k then (k, v) :: ps else p :: setKey ps k v

/-- JavaScript property read v.k, yielding undefined for a missing key and
for non-object values (the code only reads properties of objects or of
values whose truthiness was already established). -/
def jsGet : JsValue → String → JsValue
  | .obj props, k => (getKey props k).getD .undefined
  | _, _ => .undefined

/-- JavaScript property write v.k = x; a no-op on non-objects (never reached
on non-objects in the code under study). -/
def jsSet : JsValue → String → JsValue → JsValue
  | .obj props, k, v => .obj (setKey props k v)
  | w, _, _ => w

/-- Whether a value carries the given own property key. -/
def hasKey : JsValue → String → Bool
  | .obj props, k => (getKey props k).isSome
  | _, _ => false

/-- JavaScript truthiness of a modelled value (NaN is not modelled; numbers
are integers here). -/
def truthy : JsValue → Bool
  | .undefined => false
  | .null => false
  | .bool b => b
  | .num n => n != 0
  | .str s => s != ""
  | .func => true
  | .obj _ => true
  | .arr _ => true

/-- Optional-chaining property read v?.k: undefined when v is nullish,
an ordinary property read otherwise. -/
def optChain (v : JsValue) (k : String) : JsValue :=
  match v with
  | .null => .undefined
  | .undefined => .undefined
  | w => jsGet w k

/-- The JavaScript in operator: key membership for objects, and a thrown
TypeError for any non-object right operand (including null, since the in
operator requires an object). Array prototype members such as Array.prototype
members are not modelled; this is unobservable below because the capability
check tests the key "globals" first, which no array carries. -/
def jsIn (key : String) : JsValue → Except String Bool
  | .obj props => Except.ok (getKey props key).isSome
  | .arr _ => Except.ok false
  | _ => Except.error "TypeError"

/-- Array.prototype.every over a list of keys with a fallible predicate:
stops at the first false result, propagates a thrown exception. -/
def jsEvery (l : List String) (f : String → Except String Bool) : Except String Bool :=
  match l with
  | [] => Except.ok true
  | p :: ps =>
    match f p with
    | Except.error e => Except.error e
    | Except.ok true => jsEvery ps f
    | Except.ok false => Except.ok false

/-- The eleven DirectusClient capability names checked by the duck-typed
client test, in source order. -/
def CLIENT_PROPS : List String :=
  ["globals", "url", "with", "refresh", "login", "logout", "stopRefreshing",
   "getToken", "setToken", "request", "query"]

/-- Duck-typed check that a value is a DirectusClient: typeof must be
"object" and every capability name of CLIENT_PROPS must pass the in
operator. -/
def isDirectusClient (client : JsValue) : Except String Bool :=
  if jsTypeof client = "object" then
    jsEvery CLIENT_PROPS (fun prop => jsIn prop client)
  else
    Except.ok false

theorem jsEvery_pure (g : String → Bool) :
    ∀ l : List String, jsEvery l (fun p => Except.ok (g p)) = Except.ok (l.all g) := by
  intro l
  induction l with
  | nil => rfl
  | cons p ps ih =>
    cases hg : g p <;> simp [jsEvery, hg, ih]

theorem isDirectusClient_obj (props : List (String × JsValue)) :
    isDirectusClient (JsValue.obj props) =
      Except.ok (CLIENT_PROPS.all (fun p => (getKey props p).isSome)) := by
  have h := jsEvery_pure (fun p => (getKey props p).isSome) CLIENT_PROPS
  simpa [isDirectusClient, jsTypeof, jsIn] using h

/-- C2 counterexample: because typeof null is "object" in JavaScript, the
capability check applies the in operator to null and raises a TypeError for
the input null, instead of returning false without raising as the claim
states. -/
theorem isDirectusClient_null_raises :
    isDirectusClient JsValue.null = Except.error "TypeError" := rfl

/-- C2 (amended): for every value other than null, isDirectusClient never
raises; it returns true exactly when the value is an object carrying all
eleven capability names of CLIENT_PROPS, and false otherwise (primitives,
functions, arrays, objects missing a capability). The null case raises a
TypeError (see the counterexample). -/
theorem isDirectusClient_characterization (v : JsValue) (h : v ≠ JsValue.null) :
    (isDirectusClient v = Except.ok true ↔
      ∃ props, v = JsValue.obj props ∧ ∀ p ∈ CLIENT_PROPS, (getKey props p).isSome) ∧
    (isDirectusClient v = Except.ok true ∨ isDirectusClient v = Except.ok false) := by
  cases v with
  | null => exact absurd rfl h
  | obj props =>
    rw [isDirectusClient_obj]
    constructor
    · constructor
      · intro hall
        refine ⟨props, rfl, ?_⟩
        intro p hp
        have : CLIENT_PROPS.all (fun p => (getKey props p).isSome) = true :=
          Except.ok.inj hall
        exact List.all_eq_true.mp this p hp
      · rintro ⟨props', hv, hall⟩
        cases hv
        have : CLIENT_PROPS.all (fun p => (getKey props p).isSome) = true :=
          List.all_eq_true.mpr hall
        rw [this]
    · cases hall : CLIENT_PROPS.all (fun p => (getKey props p).isSome)
      · right; rfl
      · left; rfl
  | undefined => simp [isDirectusClient, jsTypeof]
  | bool b => simp [isDirectusClient, jsTypeof]
  | num n => simp [isDirectusClient, jsTypeof]
  | str s => simp [isDirectusClient, jsTypeof]
  | func => simp [isDirectusClient, jsTypeof]
  | arr elems => simp [isDirectusClient, jsTypeof, jsEvery, jsIn, CLIENT_PROPS]

/-- Witness for the C2 characterization at a concrete full client object. -/
theorem isDirectusClient_characterization_witness :
    (JsValue.obj (CLIENT_PROPS.map (fun p => (p, JsValue.func))) ≠ JsValue.null) ∧
    ((isDirectusClient (JsValue.obj (CLIENT_PROPS.map (fun p => (p, JsValue.func)))) =
        Except.ok true ↔
      ∃ props, JsValue.obj (CLIENT_PROPS.map (fun p => (p, JsValue.func))) =
          JsValue.obj props ∧ ∀ p ∈ CLIENT_PROPS, (getKey props p).isSome) ∧
     (isDirectusClient (JsValue.obj (CLIENT_PROPS.map (fun p => (p, JsValue.func)))) =
        Except.ok true ∨
      isDirectusClient (JsValue.obj (CLIENT_PROPS.map (fun p => (p, JsValue.func)))) =
        Except.ok false)) :=
  ⟨fun hv => JsValue.noConfusion hv,
   isDirectusClient_characterization _ (fun hv => JsValue.noConfusion hv)⟩

/-- Raw process environment as read by the module: the three optional
environment variables API_URL, API_USERNAME and API_PASSWORD. -/
structure ProcessEnv where
  API_URL : Option String := none
  API_USERNAME : Option String := none
  API_PASSWORD : Option String := none

/-- JavaScript or-default: process.env.X or fallback. The or operator treats
the empty string as falsy, so an empty environment variable also falls back. -/
def jsOrDefault (v : Option String) (d : String) : String :=
  match v with
  | some s => if s = "" then d else s
  | none => d

/-- Module constant API_URL. -/
def API_URL (env : ProcessEnv) : String :=
  jsOrDefault env.API_URL "http://localhost:8055"

/-- Module constant API_USERNAME. -/
def API_USERNAME (env : ProcessEnv) : String :=
  jsOrDefault env.API_USERNAME "admin"

/-- Module constant API_PASSWORD. -/
def API_PASSWORD (env : ProcessEnv) : String :=
  jsOrDefault env.API_PASSWORD "password"

/-- The Directus SDK client handle, as far as the module observes it: the
base URL it was created with, which capabilities were enabled by the builder
calls, the authentication mode, and whether a login succeeded on it. -/
structure DirectusClient where
  url : String
  hasAuthentication : Bool
  authMode : String
  hasRest : Bool
  hasGraphql : Bool
  loggedIn : Bool

/-- createDirectus(url): a bare client bound to the url with no capabilities
enabled yet. -/
def createDirectus (url : String) : DirectusClient :=
  { url := url, hasAuthentication := false, authMode := "", hasRest := false,
    hasGraphql := false, loggedIn := false }

/-- Builder step with(authentication(mode)). -/
def withAuthentication (c : DirectusClient) (mode : String) : DirectusClient :=
  { c with hasAuthentication := true, authMode := mode }

/-- Builder step with(rest()). -/
def withRest (c : DirectusClient) : DirectusClient :=
  { c with hasRest := true }

/-- Builder step with(graphql()). -/
def withGraphql (c : DirectusClient) : DirectusClient :=
  { c with hasGraphql := true }

/-- Module-level mutable state of the client provider: the memoized client
singleton, plus a ghost record of every login call issued with its
username/password arguments (instrumentation only, used to state that a call
performed or skipped a login). -/
structure BackendState where
  client : Option DirectusClient
  loginCalls : List (String × String)

/-- getBackendClient(apiUsername?, apiPassword?, apiUrl?). The login network
call is an oracle from username and password to success or a serialized
error. Note the body uses the module constants API_URL, API_USERNAME and
API_PASSWORD, not the defaulted parameters, exactly as the source does; and
the singleton assignment happens before the login is awaited. -/
def getBackendClient (env : ProcessEnv) (login : String → String → Except String Unit)
    (apiUsername apiPassword apiUrl : Option String) (st : BackendState) :
    Except String DirectusClient × BackendState :=
  let _apiUsername := apiUsername.getD (API_USERNAME env)
  let _apiPassword := apiPassword.getD (API_PASSWORD env)
  let _apiUrl := apiUrl.getD (API_URL env)
  match st.client with
  | some c => (Except.ok c, st)
  | none =>
    let c := withGraphql (withRest (withAuthentication (createDirectus (API_URL env)) "json"))
    let st' : BackendState :=
      { client := some c,
        loginCalls := st.loginCalls ++ [(API_USERNAME env, API_PASSWORD env)] }
    match login (API_USERNAME env) (API_PASSWORD env) with
    | Except.ok _ =>
      let c' := { c with loggedIn := true }
      (Except.ok c', { st' with client := some c' })
    | Except.error err =>
      (Except.error ("Failed to log into backend: " ++ err), st')

/-- The fresh module state: no memoized client, no login issued yet. -/
def initialBackendState : BackendState := ⟨none, []⟩

/-- A login dependency that rejects every credential pair; JSON.stringify of
the rejection value serializes to an empty object. -/
def rejectingLogin : String → String → Except String Unit :=
  fun _ _ => Except.error "\x7b\x7d"

/-- An always-succeeding login dependency. -/
def acceptingLogin : String → String → Except String Unit :=
  fun _ _ => Except.ok ()

/-- C1: with credentials the backend rejects, the first call raises the
wrapped error (that part of the claim holds), but because the constructed
client is assigned to the singleton before the login is awaited, the client
stays memoized after the failure and the second call returns the
unauthenticated client with no further login attempt — the code contradicts
the claim that the client is not memoized and that a subsequent call
re-attempts the login. -/
theorem getBackendClient_failed_login_leaves_client_memoized :
    (getBackendClient {} rejectingLogin none none none initialBackendState).1 =
      Except.error "Failed to log into backend: \x7b\x7d" ∧
    ((getBackendClient {} rejectingLogin none none none initialBackendState).2).client =
      some { url := "http://localhost:8055", hasAuthentication := true, authMode := "json",
             hasRest := true, hasGraphql := true, loggedIn := false } ∧
    getBackendClient {} rejectingLogin none none none
        (getBackendClient {} rejectingLogin none none none initialBackendState).2 =
      (Except.ok { url := "http://localhost:8055", hasAuthentication := true, authMode := "json",
                   hasRest := true, hasGraphql := true, loggedIn := false },
       (getBackendClient {} rejectingLogin none none none initialBackendState).2) :=
  ⟨rfl, rfl, rfl⟩

/-- C4: on the first invocation with explicit username, password and url
arguments, the constructed client is bound to the environment-derived
API_URL (not the url argument) and the login is issued with the
environment-derived API_USERNAME and API_PASSWORD (not the arguments) —
the three parameters are ignored by the body, contradicting the claim and
the parameter documentation of the source. -/
theorem getBackendClient_ignores_arguments :
    (getBackendClient {} acceptingLogin (some "user1") (some "pass1")
        (some "http://example.org") initialBackendState).1 =
      Except.ok { url := "http://localhost:8055", hasAuthentication := true, authMode := "json",
                  hasRest := true, hasGraphql := true, loggedIn := true } ∧
    ((getBackendClient {} acceptingLogin (some "user1") (some "pass1")
        (some "http://example.org") initialBackendState).2).loginCalls =
      [("admin", "password")] :=
  ⟨rfl, rfl⟩

/-- C5: starting from a fresh state, when the login for the
environment-derived credentials succeeds, the first call returns a client
that is memoized, and a second call (with any arguments) returns the
identical memoized client and leaves the state untouched — in particular the
ghost login record does not grow, so no second login is performed. -/
theorem getBackendClient_memoizes_on_success (env : ProcessEnv)
    (login : String → String → Except String Unit)
    (u1 p1 l1 u2 p2 l2 : Option String) (st : BackendState)
    (hst : st.client = none)
    (hlogin : login (API_USERNAME env) (API_PASSWORD env) = Except.ok ()) :
    ∃ c : DirectusClient,
      (getBackendClient env login u1 p1 l1 st).1 = Except.ok c ∧
      ((getBackendClient env login u1 p1 l1 st).2).client = some c ∧
      getBackendClient env login u2 p2 l2 ((getBackendClient env login u1 p1 l1 st).2) =
        (Except.ok c, (getBackendClient env login u1 p1 l1 st).2) := by
  refine ⟨{ url := API_URL env, hasAuthentication := true, authMode := "json",
            hasRest := true, hasGraphql := true, loggedIn := true }, ?_, ?_, ?_⟩ <;>
    simp [getBackendClient, hst, hlogin, withGraphql, withRest, withAuthentication,
      createDirectus]

/-- Witness for C5 at the default environment, an accepting login oracle and
the fresh state. -/
theorem getBackendClient_memoizes_on_success_witness :
    (initialBackendState.client = none) ∧
    (acceptingLogin (API_USERNAME {}) (API_PASSWORD {}) = Except.ok ()) ∧
    (∃ c : DirectusClient,
      (getBackendClient {} acceptingLogin none none none initialBackendState).1 =
        Except.ok c ∧
      ((getBackendClient {} acceptingLogin none none none initialBackendState).2).client =
        some c ∧
      getBackendClient {} acceptingLogin (some "other") none none
          ((getBackendClient {} acceptingLogin none none none initialBackendState).2) =
        (Except.ok c,
         (getBackendClient {} acceptingLogin none none none initialBackendState).2)) :=
  ⟨rfl, rfl,
   getBackendClient_memoizes_on_success {} acceptingLogin none none none
     (some "other") none none initialBackendState rfl rfl⟩

/-- The fixed GraphQL document requesting the general site configuration
from the singleton global record (braces written as escapes). -/
def SITE_CONFIG_QUERY : String :=
  "\x7b\n  global \x7b\n    title\n    description\n    navbar_config\n    service_mode\n    date_updated\n  \x7d\n\x7d"

/-- The fixed GraphQL document requesting the maintenance page title and
body from the singleton global record. -/
def MAINTENANCE_MODE_QUERY : String :=
  "\x7b\n  global \x7b\n    maintenance_page_title\n    maintenance_page_body\n  \x7d\n\x7d"

/-- JavaScript strict equality of a value against a string literal, as in
result.service_mode checked against the maintenance literal. -/
def strictEqString (v : JsValue) (s : String) : Bool :=
  match v with
  | .str t => t == s
  | _ => false

theorem strictEqString_eq_true (v : JsValue) (s : String) :
    strictEqString v s = true ↔ v = JsValue.str s := by
  cases v <;> simp [strictEqString]

/-- First half of getSiteConfig after a successful first query: take
resp.global when it is truthy, otherwise log the defensive diagnostic and
substitute an empty record. Returns the chosen record and the log lines. -/
def siteConfigBase (resp : JsValue) : JsValue × List String :=
  if truthy (optChain resp "global") then
    (jsGet resp "global", [])
  else
    (JsValue.obj [], ["No global object found in getSiteConfig, should not happen."])

/-- Merge step of getSiteConfig: when the maintenance response has a truthy
global field, assign its maintenance_page_title and maintenance_page_body
onto the result, in that order; otherwise leave the result unchanged. -/
def mergeMaintenance (result : JsValue) (resp2 : JsValue) : JsValue :=
  if truthy (optChain resp2 "global") then
    jsSet (jsSet result "maintenance_page_title"
        (jsGet (jsGet resp2 "global") "maintenance_page_title"))
      "maintenance_page_body" (jsGet (jsGet resp2 "global") "maintenance_page_body")
  else result

/-- getSiteConfig over a query oracle standing for client.query. Returns the
result (or the thrown error message) together with the console log lines in
order. The maintenance query is only reached in the maintenance branch,
exactly as in the source. -/
def getSiteConfig (queryOracle : String → Except String JsValue) :
    Except String JsValue × List String :=
  match queryOracle SITE_CONFIG_QUERY with
  | Except.error error =>
    (Except.error ("Failed to retrieve site config: " ++ error),
     ["Failed to retrieve site config: " ++ error])
  | Except.ok resp =>
    let rl := siteConfigBase resp
    if strictEqString (jsGet rl.1 "service_mode") "maintenance" then
      match queryOracle MAINTENANCE_MODE_QUERY with
      | Except.error error =>
        (Except.error ("Failed to retrieve maintenance mode config: " ++ error),
         rl.2 ++ ["Site is in maintenance mode",
                  "Failed to retrieve maintenance mode config: " ++ error])
      | Except.ok resp2 =>
        (Except.ok (mergeMaintenance rl.1 resp2), rl.2 ++ ["Site is in maintenance mode"])
    else
      (Except.ok rl.1, rl.2)

theorem getKey_setKey_self (ps : List (String × JsValue)) (k : String) (v : JsValue) :
    getKey (setKey ps k v) k = some v := by
  induction ps with
  | nil => simp [setKey, getKey]
  | cons p ps ih =>
    by_cases h : p.1 = k
    · simp [setKey, getKey, h]
    · simp [setKey, getKey, h, ih]

theorem getKey_setKey_ne (ps : List (String × JsValue)) (k k' : String) (v : JsValue)
    (h : k' ≠ k) : getKey (setKey ps k v) k' = getKey ps k' := by
  induction ps with
  | nil => simp [setKey, getKey, Ne.symm h]
  | cons p ps ih =>
    by_cases hp : p.1 = k
    · subst hp
      simp [setKey, getKey, Ne.symm h]
    · simp only [setKey, if_neg hp, getKey]
      by_cases hp' : p.1 = k'
      · simp [hp']
      · simp [hp', ih]

theorem jsGet_obj (props : List (String × JsValue)) (k : String) :
    jsGet (JsValue.obj props) k = (getKey props k).getD JsValue.undefined := rfl

theorem hasKey_obj (props : List (String × JsValue)) (k : String) :
    hasKey (JsValue.obj props) k = (getKey props k).isSome := rfl

theorem jsGet_eq_str_obj (g : JsValue) (k s : String) (h : jsGet g k = JsValue.str s) :
    ∃ ps, g = JsValue.obj ps ∧ getKey ps k = some (JsValue.str s) := by
  cases g <;> simp [jsGet] at h
  case obj ps =>
    rcases hk : getKey ps k with _ | v
    · rw [hk] at h
      simp at h
    · rw [hk] at h
      simp at h
      exact ⟨ps, rfl, by rw [hk, h]⟩

/-- C8: when the first query succeeds but its response has no truthy global
field, getSiteConfig logs the defensive diagnostic and returns the empty
record instead of raising. -/
theorem getSiteConfig_missing_global_falls_back
    (queryOracle : String → Except String JsValue) (resp : JsValue)
    (h1 : queryOracle SITE_CONFIG_QUERY = Except.ok resp)
    (h2 : truthy (optChain resp "global") = false) :
    (getSiteConfig queryOracle).1 = Except.ok (JsValue.obj []) ∧
    "No global object found in getSiteConfig, should not happen." ∈
      (getSiteConfig queryOracle).2 := by
  simp [getSiteConfig, h1, siteConfigBase, h2, jsGet, getKey, strictEqString]

/-- Oracle whose site-config response is an empty object, so the global
field is missing. -/
def c8Oracle : String → Except String JsValue := fun _ => Except.ok (JsValue.obj [])

/-- Witness for C8 at a concrete oracle whose first response lacks the
global field. -/
theorem getSiteConfig_missing_global_falls_back_witness :
    (c8Oracle SITE_CONFIG_QUERY = Except.ok (JsValue.obj [])) ∧
    (truthy (optChain (JsValue.obj []) "global") = false) ∧
    ((getSiteConfig c8Oracle).1 = Except.ok (JsValue.obj []) ∧
     "No global object found in getSiteConfig, should not happen." ∈
       (getSiteConfig c8Oracle).2) :=
  ⟨rfl, rfl, getSiteConfig_missing_global_falls_back c8Oracle (JsValue.obj []) rfl rfl⟩

/-- C9 (amended): in a run whose first response has a truthy global record
with service mode maintenance, the maintenance query decides the outcome:
its failure raises the wrapped maintenance error, and when it resolves with
a response carrying a truthy global field, both maintenance fields are
merged into the returned record with the values from that response. -/
theorem getSiteConfig_maintenance_second_query
    (queryOracle : String → Except String JsValue) (resp : JsValue)
    (h1 : queryOracle SITE_CONFIG_QUERY = Except.ok resp)
    (hg : truthy (optChain resp "global") = true)
    (hm : jsGet (jsGet resp "global") "service_mode" = JsValue.str "maintenance") :
    (∀ e, queryOracle MAINTENANCE_MODE_QUERY = Except.error e →
      (getSiteConfig queryOracle).1 =
        Except.error ("Failed to retrieve maintenance mode config: " ++ e)) ∧
    (∀ resp2, queryOracle MAINTENANCE_MODE_QUERY = Except.ok resp2 →
      truthy (optChain resp2 "global") = true →
      ∃ r, (getSiteConfig queryOracle).1 = Except.ok r ∧
        hasKey r "maintenance_page_title" = true ∧
        hasKey r "maintenance_page_body" = true ∧
        jsGet r "maintenance_page_title" =
          jsGet (jsGet resp2 "global") "maintenance_page_title" ∧
        jsGet r "maintenance_page_body" =
          jsGet (jsGet resp2 "global") "maintenance_page_body") := by
  obtain ⟨ps, hps, hk⟩ := jsGet_eq_str_obj (jsGet resp "global") "service_mode" "maintenance" hm
  have hsm : strictEqString (jsGet (jsGet resp "global") "service_mode") "maintenance" = true := by
    rw [hm]
    simp [strictEqString]
  constructor
  · intro e he
    simp [getSiteConfig, h1, siteConfigBase, hg, hsm, he]
  · intro resp2 h2 htr
    refine ⟨mergeMaintenance (jsGet resp "global") resp2, ?_, ?_, ?_, ?_, ?_⟩
    · simp [getSiteConfig, h1, siteConfigBase, hg, hsm, h2]
    all_goals
      rw [hps]
      simp [mergeMaintenance, htr, jsSet, hasKey_obj, jsGet_obj,
        getKey_setKey_self, getKey_setKey_ne]

/-- Oracle for the C9 witness: maintenance mode with a well-formed
maintenance response. -/
def c9wOracle : String → Except String JsValue := fun q =>
  if q = SITE_CONFIG_QUERY then
    Except.ok (JsValue.obj [("global",
      JsValue.obj [("service_mode", JsValue.str "maintenance")])])
  else
    Except.ok (JsValue.obj [("global",
      JsValue.obj [("maintenance_page_title", JsValue.str "Down"),
                   ("maintenance_page_body", JsValue.str "Back soon")])])

/-- Witness for the amended C9 at a concrete maintenance-mode run. -/
theorem getSiteConfig_maintenance_second_query_witness :
    (c9wOracle SITE_CONFIG_QUERY = Except.ok (JsValue.obj [("global",
        JsValue.obj [("service_mode", JsValue.str "maintenance")])])) ∧
    (truthy (optChain (JsValue.obj [("global",
        JsValue.obj [("service_mode", JsValue.str "maintenance")])]) "global") = true) ∧
    (jsGet (jsGet (JsValue.obj [("global",
        JsValue.obj [("service_mode", JsValue.str "maintenance")])]) "global")
        "service_mode" = JsValue.str "maintenance") ∧
    ((∀ e, c9wOracle MAINTENANCE_MODE_QUERY = Except.error e →
      (getSiteConfig c9wOracle).1 =
        Except.error ("Failed to retrieve maintenance mode config: " ++ e)) ∧
     (∀ resp2, c9wOracle MAINTENANCE_MODE_QUERY = Except.ok resp2 →
      truthy (optChain resp2 "global") = true →
      ∃ r, (getSiteConfig c9wOracle).1 = Except.ok r ∧
        hasKey r "maintenance_page_title" = true ∧
        hasKey r "maintenance_page_body" = true ∧
        jsGet r "maintenance_page_title" =
          jsGet (jsGet resp2 "global") "maintenance_page_title" ∧
        jsGet r "maintenance_page_body" =
          jsGet (jsGet resp2 "global") "maintenance_page_body")) :=
  ⟨rfl, rfl, rfl,
   getSiteConfig_maintenance_second_query c9wOracle
     (JsValue.obj [("global", JsValue.obj [("service_mode", JsValue.str "maintenance")])])
     rfl rfl rfl⟩

/-- Oracle falsifying C9 as stated: the maintenance query resolves
successfully but its response has no global field, so no merge happens and
no error is raised. -/
def c9Oracle : String → Except String JsValue := fun q =>
  if q = SITE_CONFIG_QUERY then
    Except.ok (JsValue.obj [("global",
      JsValue.obj [("service_mode", JsValue.str "maintenance")])])
  else
    Except.ok (JsValue.obj [])

/-- C9 counterexample: a run in maintenance mode whose second query succeeds
with a response lacking the global field returns the record with neither
maintenance field merged and raises no error, falsifying the unconditional
merge stated by the claim. -/
theorem getSiteConfig_merge_skipped_counterexample :
    (getSiteConfig c9Oracle).1 =
      Except.ok (JsValue.obj [("service_mode", JsValue.str "maintenance")]) ∧
    hasKey (JsValue.obj [("service_mode", JsValue.str "maintenance")])
      "maintenance_page_title" = false ∧
    hasKey (JsValue.obj [("service_mode", JsValue.str "maintenance")])
      "maintenance_page_body" = false :=
  ⟨rfl, rfl, rfl⟩

/-- C10: when the first response is in maintenance mode and the maintenance
query resolves successfully but its response has no truthy global field, the
merge is silently skipped: getSiteConfig returns the first global record
unchanged (in particular without maintenance fields when the first record
carries none) and raises no error. -/
theorem getSiteConfig_maintenance_missing_global_skips_merge
    (queryOracle : String → Except String JsValue) (resp resp2 : JsValue)
    (h1 : queryOracle SITE_CONFIG_QUERY = Except.ok resp)
    (hg : truthy (optChain resp "global") = true)
    (hm : jsGet (jsGet resp "global") "service_mode" = JsValue.str "maintenance")
    (h2 : queryOracle MAINTENANCE_MODE_QUERY = Except.ok resp2)
    (hng : truthy (optChain resp2 "global") = false)
    (ht : hasKey (jsGet resp "global") "maintenance_page_title" = false)
    (hb : hasKey (jsGet resp "global") "maintenance_page_body" = false) :
    (getSiteConfig queryOracle).1 = Except.ok (jsGet resp "global") ∧
    hasKey (jsGet resp "global") "maintenance_page_title" = false ∧
    hasKey (jsGet resp "global") "maintenance_page_body" = false := by
  have hsm : strictEqString (jsGet (jsGet resp "global") "service_mode") "maintenance" = true := by
    rw [hm]
    simp [strictEqString]
  refine ⟨?_, ht, hb⟩
  simp [getSiteConfig, h1, siteConfigBase, hg, hsm, h2, mergeMaintenance, hng]

/-- Oracle for the C10 witness: maintenance mode, and a maintenance response
that lacks the global field. -/
def c10Oracle : String → Except String JsValue := fun q =>
  if q = SITE_CONFIG_QUERY then
    Except.ok (JsValue.obj [("global",
      JsValue.obj [("title", JsValue.str "LigerBots"),
                   ("service_mode", JsValue.str "maintenance")])])
  else
    Except.ok (JsValue.obj [("other", JsValue.num 1)])

/-- Witness for C10 at a concrete run. -/
theorem getSiteConfig_maintenance_missing_global_skips_merge_witness :
    (c10Oracle SITE_CONFIG_QUERY = Except.ok (JsValue.obj [("global",
        JsValue.obj [("title", JsValue.str "LigerBots"),
                     ("service_mode", JsValue.str "maintenance")])])) ∧
    (c10Oracle MAINTENANCE_MODE_QUERY =
      Except.ok (JsValue.obj [("other", JsValue.num 1)])) ∧
    ((getSiteConfig c10Oracle).1 =
      Except.ok (jsGet (JsValue.obj [("global",
        JsValue.obj [("title", JsValue.str "LigerBots"),
                     ("service_mode", JsValue.str "maintenance")])]) "global") ∧
     hasKey (jsGet (JsValue.obj [("global",
        JsValue.obj [("title", JsValue.str "LigerBots"),
                     ("service_mode", JsValue.str "maintenance")])]) "global")
       "maintenance_page_title" = false ∧
     hasKey (jsGet (JsValue.obj [("global",
        JsValue.obj [("title", JsValue.str "LigerBots"),
                     ("service_mode", JsValue.str "maintenance")])]) "global")
       "maintenance_page_body" = false) :=
  ⟨rfl, rfl,
   getSiteConfig_maintenance_missing_global_skips_merge c10Oracle
     (JsValue.obj [("global",
       JsValue.obj [("title", JsValue.str "LigerBots"),
                    ("service_mode", JsValue.str "maintenance")])])
     (JsValue.obj [("other", JsValue.num 1)])
     rfl rfl rfl rfl rfl rfl rfl⟩

/-- Oracle falsifying the C3 invariant: maintenance mode in the first
response, and a null maintenance response, so the merge is skipped. -/
def c3Oracle : String → Except String JsValue := fun q =>
  if q = SITE_CONFIG_QUERY then
    Except.ok (JsValue.obj [("global",
      JsValue.obj [("title", JsValue.str "Home"),
                   ("service_mode", JsValue.str "maintenance")])])
  else
    Except.ok JsValue.null

/-- C3 counterexample: a record returned by getSiteConfig whose service mode
equals maintenance but which contains neither maintenance field, falsifying
the stated if-and-only-if invariant. -/
theorem getSiteConfig_maintenance_without_fields :
    (getSiteConfig c3Oracle).1 =
      Except.ok (JsValue.obj [("title", JsValue.str "Home"),
                              ("service_mode", JsValue.str "maintenance")]) ∧
    jsGet (JsValue.obj [("title", JsValue.str "Home"),
                        ("service_mode", JsValue.str "maintenance")]) "service_mode" =
      JsValue.str "maintenance" ∧
    hasKey (JsValue.obj [("title", JsValue.str "Home"),
                         ("service_mode", JsValue.str "maintenance")])
      "maintenance_page_title" = false ∧
    hasKey (JsValue.obj [("title", JsValue.str "Home"),
                         ("service_mode", JsValue.str "maintenance")])
      "maintenance_page_body" = false :=
  ⟨rfl, rfl, rfl, rfl⟩

/-- C3 (amended): in any run whose first response carries no maintenance
fields on its global record (as is the case for responses to the fixed first
query, which does not request them), a successfully returned record carries
a maintenance field if and only if its service mode equals maintenance AND
the maintenance query resolved with a response carrying a truthy global
field; when the maintenance response lacks that field, the returned record
is in maintenance mode without maintenance fields. -/
theorem getSiteConfig_maintenance_fields_iff
    (queryOracle : String → Except String JsValue) (r : JsValue)
    (hok : (getSiteConfig queryOracle).1 = Except.ok r)
    (hclean : ∀ resp, queryOracle SITE_CONFIG_QUERY = Except.ok resp →
      hasKey (jsGet resp "global") "maintenance_page_title" = false ∧
      hasKey (jsGet resp "global") "maintenance_page_body" = false) :
    ((hasKey r "maintenance_page_title" = true ∨ hasKey r "maintenance_page_body" = true) ↔
      (jsGet r "service_mode" = JsValue.str "maintenance" ∧
       ∃ resp2, queryOracle MAINTENANCE_MODE_QUERY = Except.ok resp2 ∧
         truthy (optChain resp2 "global") = true)) := by
  rcases hq : queryOracle SITE_CONFIG_QUERY with e | resp
  · simp [getSiteConfig, hq] at hok
  · obtain ⟨hct, hcb⟩ := hclean resp hq
    by_cases hgb : truthy (optChain resp "global") = true
    · by_cases hsm :
        strictEqString (jsGet (jsGet resp "global") "service_mode") "maintenance" = true
      · rcases hq2 : queryOracle MAINTENANCE_MODE_QUERY with e2 | resp2
        · simp [getSiteConfig, hq, siteConfigBase, hgb, hsm, hq2] at hok
        · have hm : jsGet (jsGet resp "global") "service_mode" = JsValue.str "maintenance" :=
            (strictEqString_eq_true _ _).mp hsm
          obtain ⟨ps, hps, hk⟩ :=
            jsGet_eq_str_obj (jsGet resp "global") "service_mode" "maintenance" hm
          by_cases hmg : truthy (optChain resp2 "global") = true
          · have hr : mergeMaintenance (jsGet resp "global") resp2 = r := by
              have h := hok
              simp [getSiteConfig, hq, siteConfigBase, hgb, hsm, hq2] at h
              exact h
            rw [hps] at hr
            simp only [mergeMaintenance, hmg, if_true, jsSet] at hr
            constructor
            · intro _
              refine ⟨?_, resp2, rfl, hmg⟩
              rw [← hr]
              simp [jsGet_obj, getKey_setKey_ne, hk]
            · intro _
              left
              rw [← hr]
              simp [hasKey_obj, getKey_setKey_ne, getKey_setKey_self]
          · have hmg' : truthy (optChain resp2 "global") = false := by
              simpa using hmg
            have hr : jsGet resp "global" = r := by
              have h := hok
              simp [getSiteConfig, hq, siteConfigBase, hgb, hsm, hq2,
                mergeMaintenance, hmg'] at h
              exact h
            rw [← hr]
            constructor
            · intro hdisj
              rcases hdisj with hd | hd
              · rw [hct] at hd
                exact absurd hd (by simp)
              · rw [hcb] at hd
                exact absurd hd (by simp)
            · rintro ⟨-, resp2', he', htr'⟩
              cases Except.ok.inj he'
              exact absurd htr' (by simpa using hmg)
      · have hsm' :
          strictEqString (jsGet (jsGet resp "global") "service_mode") "maintenance" = false := by
          simpa using hsm
        have hr : jsGet resp "global" = r := by
          have h := hok
          simp [getSiteConfig, hq, siteConfigBase, hgb, hsm'] at h
          exact h
        rw [← hr]
        constructor
        · intro hdisj
          rcases hdisj with hd | hd
          · rw [hct] at hd
            exact absurd hd (by simp)
          · rw [hcb] at hd
            exact absurd hd (by simp)
        · rintro ⟨hsv, -⟩
          exact absurd ((strictEqString_eq_true _ _).mpr hsv) hsm
    · have hgb' : truthy (optChain resp "global") = false := by
        simpa using hgb
      have hr : JsValue.obj [] = r := by
        have h := hok
        simp [getSiteConfig, hq, siteConfigBase, hgb', jsGet, getKey, strictEqString] at h
        exact h
      rw [← hr]
      simp [hasKey_obj, jsGet_obj, getKey]

/-- Oracle for the C3 witness: a maintenance-mode run whose maintenance
response is well formed, so both fields are merged. -/
def c3wOracle : String → Except String JsValue := fun q =>
  if q = SITE_CONFIG_QUERY then
    Except.ok (JsValue.obj [("global",
      JsValue.obj [("service_mode", JsValue.str "maintenance")])])
  else
    Except.ok (JsValue.obj [("global",
      JsValue.obj [("maintenance_page_title", JsValue.str "Down"),
                   ("maintenance_page_body", JsValue.str "Back soon")])])

/-- Witness for the amended C3 at a concrete merged run. -/
theorem getSiteConfig_maintenance_fields_iff_witness :
    ((getSiteConfig c3wOracle).1 =
      Except.ok (JsValue.obj [("service_mode", JsValue.str "maintenance"),
                              ("maintenance_page_title", JsValue.str "Down"),
                              ("maintenance_page_body", JsValue.str "Back soon")])) ∧
    ((hasKey (JsValue.obj [("service_mode", JsValue.str "maintenance"),
                           ("maintenance_page_title", JsValue.str "Down"),
                           ("maintenance_page_body", JsValue.str "Back soon")])
        "maintenance_page_title" = true ∨
      hasKey (JsValue.obj [("service_mode", JsValue.str "maintenance"),
                           ("maintenance_page_title", JsValue.str "Down"),
                           ("maintenance_page_body", JsValue.str "Back soon")])
        "maintenance_page_body" = true) ↔
      (jsGet (JsValue.obj [("service_mode", JsValue.str "maintenance"),
                           ("maintenance_page_title", JsValue.str "Down"),
                           ("maintenance_page_body", JsValue.str "Back soon")])
          "service_mode" = JsValue.str "maintenance" ∧
       ∃ resp2, c3wOracle MAINTENANCE_MODE_QUERY = Except.ok resp2 ∧
         truthy (optChain resp2 "global") = true)) :=
  ⟨rfl,
   getSiteConfig_maintenance_fields_iff c3wOracle
     (JsValue.obj [("service_mode", JsValue.str "maintenance"),
                   ("maintenance_page_title", JsValue.str "Down"),
                   ("maintenance_page_body", JsValue.str "Back soon")])
     rfl
     (fun resp h => by
       cases Except.ok.inj h
       exact ⟨rfl, rfl⟩)⟩

/-- The default page query template, containing the slug placeholder once
(braces and inner quotes written as escapes). -/
def PAGE_QUERY : String :=
  "\x7b\n  page(filter: \x7b slug: \x7b _eq: \"\x7b\x7bslug\x7d\x7d\" \x7d \x7d) \x7b\n      slug\n      title\n      script\n      content\n      style\n  \x7d\n\x7d"

/-- The placeholder searched for by the substitution. -/
def SLUG_PLACEHOLDER : String := "\x7b\x7bslug\x7d\x7d"

/-- Split a character list around the first occurrence of a pattern,
returning the part before the match and the part after it. -/
def findSplit (pat : List Char) : List Char → Option (List Char × List Char)
  | [] => if pat.isEmpty then some ([], []) else none
  | c :: cs =>
    if pat.isPrefixOf (c :: cs) then
      some ([], (c :: cs).drop pat.length)
    else
      match findSplit pat cs with
      | some (pre, post) => some (c :: pre, post)
      | none => none

/-- Expansion of a String.replace replacement string for a string search
pattern, per GetSubstitution: a doubled dollar yields a dollar, dollar
ampersand yields the matched text, dollar backquote yields the text before
the match, dollar single quote yields the text after the match; any other
dollar sequence is kept as is (there are no capture groups for a string
pattern). The characters backquote and single quote are written via their
code points. -/
def expandReplacement (matched before after : String) : List Char → List Char
  | [] => []
  | [c] => [c]
  | c :: d :: rest =>
    if c = '$' then
      if d = '$' then '$' :: expandReplacement matched before after rest
      else if d = '&' then matched.data ++ expandReplacement matched before after rest
      else if d = Char.ofNat 96 then before.data ++ expandReplacement matched before after rest
      else if d = Char.ofNat 39 then after.data ++ expandReplacement matched before after rest
      else '$' :: expandReplacement matched before after (d :: rest)
    else c :: expandReplacement matched before after (d :: rest)

/-- JavaScript String.prototype.replace with a string search value: replace
only the first occurrence, expanding replacement patterns in the
replacement string. -/
def jsReplaceFirst (s searchValue replaceValue : String) : String :=
  match findSplit searchValue.data s.data with
  | none => s
  | some (pre, post) =>
    String.mk (pre ++
      expandReplacement searchValue (String.mk pre) (String.mk post) replaceValue.data ++
      post)

/-- Modelled from the spec: literal first-occurrence substitution, with the
replacement text inserted verbatim and every other character unchanged. This
is the substitution the spec describes; it is compared against the
String.replace behaviour of the source. -/
def literalSubstFirst (s searchValue replaceValue : String) : String :=
  match findSplit searchValue.data s.data with
  | none => s
  | some (pre, post) => String.mk (pre ++ replaceValue.data ++ post)

/-- The query string issued by getPage: the template (the default when no
override is passed) with the placeholder substituted via String.replace. -/
def substitutedPageQuery (slug : String) (query : Option String) : String :=
  jsReplaceFirst (query.getD PAGE_QUERY) SLUG_PLACEHOLDER slug

/-- Array.prototype.shift on a modelled array: the first element (or
undefined via none) together with the remaining list. -/
def jsShift (l : List JsValue) : Option JsValue × List JsValue :=
  (l.head?, l.tail)

/-- Reshaping of the query response performed inside the try block of
getPage: shift the first element off resp.page; a missing or non-array page
field makes shift throw a TypeError, which the catch wraps with its JSON
serialization (an empty object). -/
def pageShiftResult (resp : Except String JsValue) : Except String JsValue :=
  match resp with
  | Except.ok respv =>
    match jsGet respv "page" with
    | JsValue.arr pages => Except.ok ((jsShift pages).1.getD JsValue.undefined)
    | _ => Except.error ("failed to retrieve page: \x7b\x7d")
  | Except.error err => Except.error ("failed to retrieve page: " ++ err)

/-- getPage(slug, query?) over a query oracle standing for client.query:
substitute the slug into the template, issue the query, and take the first
element of the returned page list; a rejected query is wrapped into the
failed-to-retrieve error with the serialized cause. -/
def getPage (queryOracle : String → Except String JsValue) (slug : String)
    (query : Option String) : Except String JsValue :=
  pageShiftResult (queryOracle (substitutedPageQuery slug query))

/-- C6: when the query succeeds and the response carries a page array, the
result is exactly the first element of that array (fields untouched) with
the element removed from the list, and an empty array yields undefined with
no error raised. -/
theorem getPage_takes_first_of_page_list
    (queryOracle : String → Except String JsValue) (slug : String)
    (respv : JsValue) (pages : List JsValue)
    (h1 : queryOracle (substitutedPageQuery slug none) = Except.ok respv)
    (h2 : jsGet respv "page" = JsValue.arr pages) :
    (∀ p ps, pages = p :: ps →
      getPage queryOracle slug none = Except.ok p ∧ (jsShift pages).2 = ps) ∧
    (pages = [] → getPage queryOracle slug none = Except.ok JsValue.undefined) := by
  constructor
  · rintro p ps rfl
    refine ⟨?_, rfl⟩
    simp [getPage, pageShiftResult, h1, h2, jsShift]
  · rintro rfl
    simp [getPage, pageShiftResult, h1, h2, jsShift]

/-- Oracle for the C6 witness, returning one matching page. -/
def c6Oracle : String → Except String JsValue := fun _ =>
  Except.ok (JsValue.obj [("page", JsValue.arr
    [JsValue.obj [("slug", JsValue.str "about"), ("title", JsValue.str "About")]])])

/-- Witness for C6 at a concrete one-page response. -/
theorem getPage_takes_first_of_page_list_witness :
    (c6Oracle (substitutedPageQuery "about" none) =
      Except.ok (JsValue.obj [("page", JsValue.arr
        [JsValue.obj [("slug", JsValue.str "about"), ("title", JsValue.str "About")]])])) ∧
    ((∀ p ps,
      [JsValue.obj [("slug", JsValue.str "about"), ("title", JsValue.str "About")]] =
          p :: ps →
      getPage c6Oracle "about" none = Except.ok p ∧
        (jsShift [JsValue.obj [("slug", JsValue.str "about"),
                               ("title", JsValue.str "About")]]).2 = ps) ∧
     ([JsValue.obj [("slug", JsValue.str "about"), ("title", JsValue.str "About")]] =
          ([] : List JsValue) →
      getPage c6Oracle "about" none = Except.ok JsValue.undefined)) :=
  ⟨rfl,
   getPage_takes_first_of_page_list c6Oracle "about"
     (JsValue.obj [("page", JsValue.arr
       [JsValue.obj [("slug", JsValue.str "about"), ("title", JsValue.str "About")]])])
     [JsValue.obj [("slug", JsValue.str "about"), ("title", JsValue.str "About")]]
     rfl rfl⟩

/-- C7 counterexample: for the slug consisting of a dollar sign and an
ampersand, String.replace expands the replacement pattern to the matched
placeholder itself, so the issued query is the unchanged template rather
than the template with the literal slug text substituted. -/
theorem getPage_dollar_slug_not_literal :
    substitutedPageQuery "$&" none = PAGE_QUERY ∧
    substitutedPageQuery "$&" none ≠ literalSubstFirst PAGE_QUERY SLUG_PLACEHOLDER "$&" :=
  ⟨by decide, by decide⟩

theorem expandReplacement_no_dollar (m b a : String) :
    ∀ l : List Char, '$' ∉ l → expandReplacement m b a l = l := by
  intro l
  induction l with
  | nil => intro _; rfl
  | cons c rest ih =>
    intro h
    have hc : ¬c = '$' := fun hh => h (hh ▸ List.mem_cons_self c rest)
    have hrest : '$' ∉ rest := fun hh => h (List.mem_cons_of_mem c hh)
    cases rest with
    | nil => rfl
    | cons d rest2 =>
      have hstep : expandReplacement m b a (c :: d :: rest2) =
          c :: expandReplacement m b a (d :: rest2) := by
        simp [expandReplacement, hc]
      rw [hstep, ih hrest]

/-- C7 (amended): for every slug containing no dollar character, getPage
issues exactly the template with its single placeholder occurrence replaced
by the literal slug text and every other character unchanged; slugs
containing dollar sequences are subject to String.replace replacement
pattern expansion instead (see the counterexample). -/
theorem getPage_literal_substitution (slug : String) (h : '$' ∉ slug.data) :
    substitutedPageQuery slug none = literalSubstFirst PAGE_QUERY SLUG_PLACEHOLDER slug ∧
    ∀ queryOracle, getPage queryOracle slug none =
      pageShiftResult (queryOracle (literalSubstFirst PAGE_QUERY SLUG_PLACEHOLDER slug)) := by
  have heq : substitutedPageQuery slug none =
      literalSubstFirst PAGE_QUERY SLUG_PLACEHOLDER slug := by
    rw [substitutedPageQuery, Option.getD, jsReplaceFirst, literalSubstFirst]
    rcases hf : findSplit SLUG_PLACEHOLDER.data PAGE_QUERY.data with _ | pre
    · rfl
    · simp [expandReplacement_no_dollar _ _ _ slug.data h]
  exact ⟨heq, fun queryOracle => by rw [getPage, heq]⟩

/-- Witness for the amended C7 at a dollar-free slug. -/
theorem getPage_literal_substitution_witness :
    ('$' ∉ "foo-bar".data) ∧
    (substitutedPageQuery "foo-bar" none =
      literalSubstFirst PAGE_QUERY SLUG_PLACEHOLDER "foo-bar" ∧
     ∀ queryOracle, getPage queryOracle "foo-bar" none =
      pageShiftResult (queryOracle (literalSubstFirst PAGE_QUERY SLUG_PLACEHOLDER "foo-bar"))) :=
  ⟨by decide, getPage_literal_substitution "foo-bar" (by decide)⟩

end LigerBots
